import Mathlib

/-!
Shallow embedding of the toggl-track-mcp core layers: the token-bucket
rate limiter (src/toggl_track_mcp/rate_limiter.py), the request executor
and typed resource accessors (src/toggl_track_mcp/toggl_client.py), and
the create-entry payload builder.  Wall-clock arithmetic, which the
Python code performs on floats returned by time.time(), is modelled over
the rationals; durations and identifiers are integers.
-/

namespace TogglTrackMCP

/-- State of `TokenBucketRateLimiter` (rate_limiter.py, lines 7-21).
Fields mirror the Python attributes `requests_per_second`, `burst_size`,
`tokens` and `last_update`; the asyncio lock is not part of the data. -/
structure RateLimiter where
  requests_per_second : ℚ
  burst_size : ℚ
  tokens : ℚ
  last_update : ℚ
deriving Repr, DecidableEq

/-- `TokenBucketRateLimiter.__init__` (rate_limiter.py, lines 10-21):
tokens start at `float(burst_size)`, `last_update` at the current time. -/
def RateLimiter.init (rps burst now : ℚ) : RateLimiter :=
  { requests_per_second := rps
    burst_size := burst
    tokens := burst
    last_update := now }

/-- `TokenBucketRateLimiter.acquire` (rate_limiter.py, lines 23-41) as a
pure state transformer: given the current time it returns the bucket
state after the call together with the duration passed to
`asyncio.sleep` (`0` when the call returns without suspending). -/
def RateLimiter.acquire (s : RateLimiter) (now : ℚ) : RateLimiter × ℚ :=
  let time_passed := now - s.last_update
  let refilled := min s.burst_size (s.tokens + time_passed * s.requests_per_second)
  if 1 ≤ refilled then
    ({ s with tokens := refilled - 1, last_update := now }, 0)
  else
    let wait_time := (1 - refilled) / s.requests_per_second
    ({ s with tokens := 0, last_update := now }, wait_time)

/-- `TokenBucketRateLimiter.get_available_tokens` (rate_limiter.py,
lines 43-49): read-only projection of the refill formula. -/
def RateLimiter.get_available_tokens (s : RateLimiter) (now : ℚ) : ℚ :=
  min s.burst_size (s.tokens + (now - s.last_update) * s.requests_per_second)

/-- The acquire algorithm exactly as the specification words it
(spec §4.1, steps 1-4): compute `elapsed`, refill `availableTokens` to
`min(burstSize, availableTokens + elapsed * requestsPerSecond)` and
update the refill instant; if at least one token is available decrement
by `1.0` and return with no suspension, otherwise suspend for
`(1.0 - availableTokens) / requestsPerSecond` seconds and set the token
count to `0.0`. -/
def acquireSpec (s : RateLimiter) (now : ℚ) : RateLimiter × ℚ :=
  let elapsed := now - s.last_update
  let availableTokens := min s.burst_size (s.tokens + elapsed * s.requests_per_second)
  if availableTokens ≥ 1 then
    ({ s with tokens := availableTokens - 1, last_update := now }, 0)
  else
    let waitSeconds := (1 - availableTokens) / s.requests_per_second
    ({ s with tokens := 0, last_update := now }, waitSeconds)

/-- One observation step for invariant reasoning: let `elapsed` time
pass so the clock reads `last_update + elapsed`, then run `acquire`;
keeps only the resulting state. -/
def RateLimiter.step (s : RateLimiter) (elapsed : ℚ) : RateLimiter :=
  (s.acquire (s.last_update + elapsed)).1

/-- A whole sequence of acquire calls separated by the given
non-negative elapsed times. -/
def RateLimiter.run (s : RateLimiter) (els : List ℚ) : RateLimiter :=
  els.foldl RateLimiter.step s

/-- Parsed JSON payloads as the client distinguishes them: objects
(dicts, identified by their field names) and arrays (by length). -/
inductive ApiData
  | dict (fields : List String)
  | list (elems : Nat)
deriving Repr, DecidableEq

/-- Python truthiness on a decoded JSON payload: an empty dict and an
empty list are falsy, everything else is truthy. -/
def ApiData.pyTruthy : ApiData → Bool
  | .dict fields => !fields.isEmpty
  | .list elems => elems != 0

/-- Python `isinstance(x, dict)` on a decoded JSON payload. -/
def ApiData.isDict : ApiData → Bool
  | .dict _ => true
  | .list _ => false

/-- An HTTP response as the executor observes it: status code, the
optional Retry-After header, the decoded JSON body (`none` models empty
response content) and the raw text used inside error messages. -/
structure HttpResponse where
  status : Nat
  retry_after : Option String
  body : Option ApiData
  text : String
deriving Repr, DecidableEq

/-- Outcome of one HTTP attempt: a response arrived, or the transport
failed (an `httpx.RequestError` carrying a message). -/
inductive AttemptOutcome
  | resp (r : HttpResponse)
  | netError (msg : String)
deriving Repr, DecidableEq

/-- Errors escaping `_make_request`: the `TogglAPIError` values the
client raises, plus the `ValueError` that Python `int()` raises on an
unparsable Retry-After header, which no except clause in
`_make_request` catches (toggl_client.py, line 271). -/
inductive ExecError
  | apiError (message : String) (status_code : Option Nat)
  | valueError (literal : String)
deriving Repr, DecidableEq

/-- Observable effects of one executor run, in order: rate-limiter
acquisitions, HTTP requests issued, and `asyncio.sleep` calls with the
slept duration in seconds. -/
inductive ExecEvent
  | acquireToken
  | httpRequest
  | sleep (seconds : ℤ)
deriving Repr, DecidableEq

/-- Digit tail of a Python integer literal, accumulating into `acc`:
single underscores are allowed only between digits. -/
def pyDigitsCore : List Char → Nat → Option Nat
  | [], acc => some acc
  | c :: rest, acc =>
    if c.isDigit then pyDigitsCore rest (acc * 10 + (c.toNat - 48))
    else if c = '_' then
      match rest with
      | c2 :: rest2 =>
        if c2.isDigit then pyDigitsCore rest2 (acc * 10 + (c2.toNat - 48)) else none
      | [] => none
    else none

/-- Nonempty digit string of a Python integer literal. -/
def pyDigits? : List Char → Option Nat
  | [] => none
  | c :: rest => if c.isDigit then pyDigitsCore rest (c.toNat - 48) else none

/-- Whitespace stripping from both ends, as Python `str.strip()`
performs before integer conversion. -/
def pyStripChars (cs : List Char) : List Char :=
  ((cs.dropWhile Char.isWhitespace).reverse.dropWhile Char.isWhitespace).reverse

/-- Python `int(str)` as `_make_request` applies it to the Retry-After
header: surrounding whitespace is stripped, an optional sign precedes a
nonempty digit string; any other shape raises `ValueError`, modelled as
`none`. -/
def pyInt? (s : String) : Option ℤ :=
  match pyStripChars s.toList with
  | '+' :: rest => (pyDigits? rest).map Int.ofNat
  | '-' :: rest => (pyDigits? rest).map (fun n => -(Int.ofNat n))
  | rest => (pyDigits? rest).map Int.ofNat

/-- The attempt loop of `TogglAPIClient._make_request` (toggl_client.py,
lines 258-309).  `env` gives the outcome of the HTTP request issued on
each attempt index; `remaining` counts the loop iterations still
allowed (`retries + 1` at entry) and `attempt` is the Python loop
variable.  Status dispatch in source order: 429 sleeps for the parsed
Retry-After (default string "2") and continues the loop; 402 and 410
raise immediately; `raise_for_status` turns any other non-2xx into an
`HTTPStatusError`, retried with exponential backoff `2 ^ attempt` until
the final attempt, which raises with the status code; a 204 status or
empty body yields the empty dict; otherwise the decoded body is
returned.  Transport errors are retried the same way and raise
"Request failed" on the final attempt; a loop that runs out raises
"Max retries exceeded". -/
def makeRequestLoop (env : Nat → AttemptOutcome) (retries : Nat) :
    Nat → Nat → List ExecEvent × Except ExecError ApiData
  | 0, _ => ([], .error (.apiError "Max retries exceeded" none))
  | remaining + 1, attempt =>
    match env attempt with
    | .netError msg =>
      if attempt = retries then
        ([.httpRequest], .error (.apiError ("Request failed: " ++ msg) none))
      else
        let rest := makeRequestLoop env retries remaining (attempt + 1)
        (.httpRequest :: .sleep (2 ^ attempt) :: rest.1, rest.2)
    | .resp r =>
      if r.status = 429 then
        match pyInt? (r.retry_after.getD "2") with
        | none => ([.httpRequest], .error (.valueError (r.retry_after.getD "2")))
        | some retryAfterSecs =>
          let rest := makeRequestLoop env retries remaining (attempt + 1)
          (.httpRequest :: .sleep retryAfterSecs :: rest.1, rest.2)
      else if r.status = 402 then
        ([.httpRequest],
         .error (.apiError "Payment required - check your Toggl subscription" (some 402)))
      else if r.status = 410 then
        ([.httpRequest],
         .error (.apiError "Resource no longer available" (some 410)))
      else if ¬(200 ≤ r.status ∧ r.status < 300) then
        if attempt = retries then
          ([.httpRequest],
           .error (.apiError ("HTTP " ++ toString r.status ++ ": " ++ r.text)
             (some r.status)))
        else
          let rest := makeRequestLoop env retries remaining (attempt + 1)
          (.httpRequest :: .sleep (2 ^ attempt) :: rest.1, rest.2)
      else if r.status = 204 ∨ r.body = none then
        ([.httpRequest], .ok (.dict []))
      else
        ([.httpRequest], .ok (r.body.getD (.dict [])))

/-- `TogglAPIClient._make_request` (toggl_client.py, lines 226-309): one
rate-limiter acquisition before the loop, then the bounded attempt
loop. -/
def make_request (env : Nat → AttemptOutcome) (retries : Nat) :
    List ExecEvent × Except ExecError ApiData :=
  let rest := makeRequestLoop env retries (retries + 1) 0
  (.acquireToken :: rest.1, rest.2)

/-- `TogglAPIClient.get_current_time_entry` (toggl_client.py, lines
318-328) on top of the executor: a truthy dict payload decodes to
`some` entry, a falsy or non-dict payload gives `none`, a
`TogglAPIError` with status 404 gives `none`, and every other error is
re-raised. -/
def get_current_time_entry (env : Nat → AttemptOutcome) (retries : Nat) :
    Except ExecError (Option ApiData) :=
  match (make_request env retries).2 with
  | .ok data => if data.pyTruthy && data.isDict then .ok (some data) else .ok none
  | .error (.apiError msg (some code)) =>
    if code = 404 then .ok none else .error (.apiError msg (some code))
  | .error e => .error e

/-- Python truthiness of the optional integer workspace arguments:
`None` and `0` are falsy. -/
def pyTruthyOptInt : Option ℤ → Bool
  | none => false
  | some v => v != 0

/-- Workspace resolution shared verbatim by `get_projects`,
`get_clients` and `get_tags` (toggl_client.py, lines 366-368, 379-381,
390-392): when the explicit argument is falsy, fetch the current user
and take the client-configured default if truthy, else the default
workspace of the fetched user.  Returns the resolved id together with
the number of `get_current_user` identity lookups performed. -/
def resolve_workspace (explicitArg clientDefault : Option ℤ)
    (userDefault : ℤ) : ℤ × Nat :=
  if pyTruthyOptInt explicitArg then (explicitArg.getD 0, 0)
  else
    let fromClient := match clientDefault with
      | some v => if v != 0 then v else userDefault
      | none => userDefault
    (fromClient, 1)

/-- Python `x or default` on an optional integer: yields `default` when
`x` is absent or zero. -/
def pyOrInt (x : Option ℤ) (dflt : ℤ) : ℤ :=
  match x with
  | some v => if v != 0 then v else dflt
  | none => dflt

/-- `TogglAPIClient.calculate_duration` (toggl_client.py, lines
399-407): `duration or 0`, then running entries (negative duration) map
to `now + duration` and everything else is returned unchanged. -/
def calculate_duration (duration : Option ℤ) (now : ℤ) : ℤ :=
  let d := pyOrInt duration 0
  if d < 0 then now + d else d

/-- The request/response section shared by `get_team_time_entries`
(toggl_client.py, lines 474-501) and `get_team_summary` (lines
544-573): acquire the shared rate limiter once, issue a single POST
with no retry loop, decode the body on status 200 (an empty body makes
`response.json()` raise `json.JSONDecodeError`, a `ValueError`
subclass), and on any other status raise a `TogglAPIError` whose
message holds the status plus the decoded payload or raw text and whose
status code is the status of the response. -/
def reports_request (r : HttpResponse) :
    List ExecEvent × Except ExecError ApiData :=
  ([.acquireToken, .httpRequest],
   if r.status = 200 then
     match r.body with
     | some data => .ok data
     | none => .error (.valueError "Expecting value")
   else
     let detail := match r.body with
       | some data => reprStr data
       | none => r.text
     .error (.apiError
       ("Reports API request failed: " ++ toString r.status ++ " - " ++ detail)
       (some r.status)))

/-- The JSON payload of the create-entry write call. -/
structure CreateEntryPayload where
  description : String
  project_id : Option ℤ
  start : String
  duration : Option ℤ
deriving Repr, DecidableEq

/-- Modelled from the spec: `TogglAPIClient.create_time_entry` is
missing from the sources (only its tests under src/tests and the server
tool that calls it are present).  Spec §4.3: the create-entry accessor
builds a request payload from the required description, an optional
project id, a start time defaulting to the current instant when
omitted, and either an explicit duration (completed entry) or no
duration (open/running entry). -/
def create_time_entry_payload (description : String) (project_id : Option ℤ)
    (start_time : Option String) (duration_seconds : Option ℤ)
    (nowInstant : String) : CreateEntryPayload :=
  { description := description
    project_id := project_id
    start := start_time.getD nowInstant
    duration := duration_seconds }

/-- A 429 response whose Retry-After header parses (or is absent, when
the default "2" applies): the shape under which the 429 branch of the
executor sleeps and continues the loop. -/
def isParsable429 : AttemptOutcome → Bool
  | .resp r => r.status == 429 && (pyInt? (r.retry_after.getD "2")).isSome
  | .netError _ => false

/-- Environment with a transport failure on the first attempt and a
successful 200 response afterwards. -/
def envNetThenOk : Nat → AttemptOutcome := fun n =>
  if n = 0 then .netError "boom"
  else .resp { status := 200, retry_after := none, body := some (.dict ["id"]), text := "" }

/-- Environment answering every attempt with a 429 response carrying
Retry-After 1. -/
def env429 : Nat → AttemptOutcome := fun _ =>
  .resp { status := 429, retry_after := some "1", body := none, text := "" }

/-- Environment answering every attempt with a 429 response with no
Retry-After header. -/
def env429NoHeader : Nat → AttemptOutcome := fun _ =>
  .resp { status := 429, retry_after := none, body := none, text := "" }

/-- Environment answering every attempt with a 429 response whose
Retry-After header does not parse as an integer. -/
def envBadRetryAfter : Nat → AttemptOutcome := fun _ =>
  .resp { status := 429, retry_after := some "abc", body := none, text := "" }

/-- Environment answering every attempt with a plain 404. -/
def env404 : Nat → AttemptOutcome := fun _ =>
  .resp { status := 404, retry_after := none, body := none, text := "" }

/-- Environment answering every attempt with an empty 204. -/
def env204 : Nat → AttemptOutcome := fun _ =>
  .resp { status := 204, retry_after := none, body := none, text := "" }

/-- A non-200 response for the Reports API path. -/
def reportsResp429 : HttpResponse :=
  { status := 429, retry_after := none, body := none, text := "too many requests" }

theorem RateLimiter.step_fields (s : RateLimiter) (e : ℚ) :
    (s.step e).requests_per_second = s.requests_per_second ∧
    (s.step e).burst_size = s.burst_size := by
  unfold RateLimiter.step RateLimiter.acquire
  dsimp only
  split <;> exact ⟨rfl, rfl⟩

theorem RateLimiter.step_tokens_bounds (s : RateLimiter) (e : ℚ)
    (hrps : 0 ≤ s.requests_per_second) (hburst : 0 ≤ s.burst_size)
    (htok : 0 ≤ s.tokens) (he : 0 ≤ e) :
    0 ≤ (s.step e).tokens ∧ (s.step e).tokens ≤ s.burst_size := by
  unfold RateLimiter.step RateLimiter.acquire
  dsimp only
  have hpassed : s.last_update + e - s.last_update = e := by ring
  have hrefill0 : 0 ≤ min s.burst_size
      (s.tokens + (s.last_update + e - s.last_update) * s.requests_per_second) := by
    rw [hpassed]
    exact le_min hburst (by positivity)
  have hrefill1 : min s.burst_size
      (s.tokens + (s.last_update + e - s.last_update) * s.requests_per_second)
      ≤ s.burst_size := min_le_left _ _
  split
  case isTrue h =>
    constructor
    · dsimp only
      linarith
    · dsimp only
      linarith
  case isFalse h =>
    exact ⟨le_refl 0, hburst⟩

theorem RateLimiter.run_tokens_bounds (els : List ℚ) (s : RateLimiter)
    (hrps : 0 ≤ s.requests_per_second) (hburst : 0 ≤ s.burst_size)
    (htok : 0 ≤ s.tokens) (htok2 : s.tokens ≤ s.burst_size)
    (hels : ∀ e ∈ els, 0 ≤ e) :
    (s.run els).requests_per_second = s.requests_per_second ∧
    (s.run els).burst_size = s.burst_size ∧
    0 ≤ (s.run els).tokens ∧ (s.run els).tokens ≤ s.burst_size := by
  induction els generalizing s with
  | nil => exact ⟨rfl, rfl, htok, htok2⟩
  | cons e rest ih =>
    have he : 0 ≤ e := hels e (List.mem_cons_self e rest)
    have hfields := RateLimiter.step_fields s e
    have hbounds := RateLimiter.step_tokens_bounds s e hrps hburst htok he
    have hrun : s.run (e :: rest) = (s.step e).run rest := rfl
    rw [hrun]
    have := ih (s.step e)
      (hfields.1 ▸ hrps) (hfields.2 ▸ hburst) hbounds.1
      (hfields.2 ▸ hbounds.2)
      (fun x hx => hels x (List.mem_cons_of_mem e hx))
    exact ⟨hfields.1 ▸ this.1, hfields.2 ▸ this.2.1, this.2.2.1,
      hfields.2 ▸ this.2.2.2⟩

theorem RateLimiter.get_available_bounds (s : RateLimiter) (obs : ℚ)
    (hrps : 0 ≤ s.requests_per_second) (hburst : 0 ≤ s.burst_size)
    (htok : 0 ≤ s.tokens) (hobs : 0 ≤ obs) :
    0 ≤ s.get_available_tokens (s.last_update + obs) ∧
    s.get_available_tokens (s.last_update + obs) ≤ s.burst_size := by
  unfold RateLimiter.get_available_tokens
  constructor
  · have h : s.last_update + obs - s.last_update = obs := by ring
    rw [h]
    exact le_min hburst (by positivity)
  · exact min_le_left _ _

/-- C3: the acquire operation of the rate limiter follows exactly the
specified algorithm — refill the token count to
`min(burstSize, tokens + elapsed * requestsPerSecond)` and update the
refill instant; when at least one token is available decrement by `1.0`
and return with no suspension, otherwise suspend for exactly
`(1.0 - tokens) / requestsPerSecond` seconds (a proportional wait) and
leave the token count at `0.0`. -/
theorem C3_acquire_matches_spec (s : RateLimiter) (now : ℚ) :
    s.acquire now = acquireSpec s now := rfl

/-- C7: across every sequence of acquire calls separated by
non-negative elapsed times, the token count of the limiter stays within
`[0, burstSize]`, and `get_available_tokens` observed after any further
non-negative delay never exceeds the burst size and never goes
negative. -/
theorem C7_token_bounds (rps burst t0 obs : ℚ) (els : List ℚ)
    (hrps : 0 < rps) (hburst : 0 < burst)
    (hels : ∀ e ∈ els, 0 ≤ e) (hobs : 0 ≤ obs) :
    0 ≤ ((RateLimiter.init rps burst t0).run els).tokens ∧
    ((RateLimiter.init rps burst t0).run els).tokens ≤ burst ∧
    0 ≤ ((RateLimiter.init rps burst t0).run els).get_available_tokens
      (((RateLimiter.init rps burst t0).run els).last_update + obs) ∧
    ((RateLimiter.init rps burst t0).run els).get_available_tokens
      (((RateLimiter.init rps burst t0).run els).last_update + obs) ≤ burst := by
  obtain ⟨hf1, hf2, h0, h1⟩ := RateLimiter.run_tokens_bounds els
    (RateLimiter.init rps burst t0) (le_of_lt hrps) (le_of_lt hburst)
    (le_of_lt hburst) (le_refl _) hels
  have hg := RateLimiter.get_available_bounds
    ((RateLimiter.init rps burst t0).run els) obs
    (by rw [hf1]; exact le_of_lt hrps) (by rw [hf2]; exact le_of_lt hburst)
    h0 hobs
  exact ⟨h0, h1, hg.1, by rw [hf2] at hg; exact hg.2⟩

theorem C7_token_bounds_witness :
    0 ≤ ((RateLimiter.init 1 3 0).run [1/2, 0, 2]).tokens ∧
    ((RateLimiter.init 1 3 0).run [1/2, 0, 2]).tokens ≤ 3 ∧
    0 ≤ ((RateLimiter.init 1 3 0).run [1/2, 0, 2]).get_available_tokens
      (((RateLimiter.init 1 3 0).run [1/2, 0, 2]).last_update + 1) ∧
    ((RateLimiter.init 1 3 0).run [1/2, 0, 2]).get_available_tokens
      (((RateLimiter.init 1 3 0).run [1/2, 0, 2]).last_update + 1) ≤ 3 :=
  C7_token_bounds 1 3 0 1 [1/2, 0, 2] (by norm_num) (by norm_num)
    (by intro e he; rcases he with _ | ⟨_, _ | ⟨_, _ | ⟨_, h⟩⟩⟩
        · norm_num
        · norm_num
        · norm_num
        · exact absurd h (List.not_mem_nil e))
    (by norm_num)

/-- C8: calculate_duration returns the duration unchanged when it is
non-negative, returns `now + duration` when the duration is negative
(running entry), and returns `0` when the duration is absent. -/
theorem C8_calculate_duration (d : Option ℤ) (now : ℤ) :
    (∀ v, d = some v → 0 ≤ v → calculate_duration d now = v) ∧
    (∀ v, d = some v → v < 0 → calculate_duration d now = now + v) ∧
    (d = none → calculate_duration d now = 0) := by
  refine ⟨?_, ?_, ?_⟩
  · rintro v rfl hv
    unfold calculate_duration pyOrInt
    by_cases h0 : v = 0
    · subst h0; simp
    · simp [h0, not_lt.mpr hv]
  · rintro v rfl hv
    have h0 : v ≠ 0 := by omega
    unfold calculate_duration pyOrInt
    simp [h0, hv]
  · rintro rfl
    rfl

theorem C8_calculate_duration_witness :
    calculate_duration (some 3600) 100 = 3600 ∧
    calculate_duration (some (-40)) 100 = 60 ∧
    calculate_duration none 100 = 0 :=
  ⟨(C8_calculate_duration (some 3600) 100).1 3600 rfl (by norm_num),
   (C8_calculate_duration (some (-40)) 100).2.1 (-40) rfl (by norm_num),
   (C8_calculate_duration none 100).2.2 rfl⟩

/-- C6 counterexample: with no explicit workspace argument but a
client-configured default of 5, the accessors still perform the
`get_current_user` identity lookup (count 1), although the claim says
the lookup happens only when neither an explicit parameter nor a
client-configured default is available. -/
theorem C6_counterexample :
    resolve_workspace none (some 5) 7 = (5, 1) ∧
    (resolve_workspace none (some 5) 7).2 ≠ 0 := by decide

/-- C6 (amended): the workspace id is resolved with precedence explicit
parameter > client-configured default > default workspace of the
current user, but the `get_current_user` identity lookup is performed
whenever the explicit parameter is falsy (absent or zero), even when a
client-configured default is available. -/
theorem C6_precedence (e c : Option ℤ) (u : ℤ) :
    (pyTruthyOptInt e = true → resolve_workspace e c u = (e.getD 0, 0)) ∧
    (pyTruthyOptInt e = false →
      (resolve_workspace e c u).2 = 1 ∧
      (pyTruthyOptInt c = true → (resolve_workspace e c u).1 = c.getD 0) ∧
      (pyTruthyOptInt c = false → (resolve_workspace e c u).1 = u)) := by
  unfold resolve_workspace
  constructor
  · intro he
    rw [if_pos he]
  · intro he
    rw [if_neg (by rw [he]; exact Bool.false_ne_true)]
    refine ⟨rfl, ?_, ?_⟩
    · intro hc
      cases c with
      | none => simp [pyTruthyOptInt] at hc
      | some v =>
        have hv : v ≠ 0 := by simpa [pyTruthyOptInt] using hc
        simp [hv]
    · intro hc
      cases c with
      | none => rfl
      | some v =>
        have hv : v = 0 := by simpa [pyTruthyOptInt] using hc
        simp [hv]

theorem C6_precedence_witness :
    resolve_workspace (some 9) (some 5) 7 = (9, 0) ∧
    (resolve_workspace none (some 5) 7).2 = 1 ∧
    (resolve_workspace none none 7).1 = 7 :=
  ⟨(C6_precedence (some 9) (some 5) 7).1 rfl,
   ((C6_precedence none (some 5) 7).2 rfl).1,
   ((C6_precedence none none 7).2 rfl).2.2 rfl⟩

/-- C4: the create-entry accessor (modelled from the spec, the method
being absent from the sources) builds its payload from the required
description, the optional project id passed through unchanged, a start
time that defaults to the current instant exactly when omitted, and a
duration passed through unchanged — an explicit duration makes a
completed entry, no duration makes a running entry. -/
theorem C4_create_payload (desc : String) (pid : Option ℤ)
    (st : Option String) (dur : Option ℤ) (nowInstant : String) :
    (create_time_entry_payload desc pid st dur nowInstant).description = desc ∧
    (create_time_entry_payload desc pid st dur nowInstant).project_id = pid ∧
    (st = none →
      (create_time_entry_payload desc pid st dur nowInstant).start = nowInstant) ∧
    (∀ s, st = some s →
      (create_time_entry_payload desc pid st dur nowInstant).start = s) ∧
    (create_time_entry_payload desc pid st dur nowInstant).duration = dur := by
  refine ⟨rfl, rfl, ?_, ?_, rfl⟩
  · rintro rfl; rfl
  · rintro s rfl; rfl

theorem C4_create_payload_witness :
    (create_time_entry_payload "meeting" none none (some 3600) "NOW").start
      = "NOW" ∧
    (create_time_entry_payload "meeting" none (some "T0") none "NOW").start
      = "T0" ∧
    (create_time_entry_payload "meeting" none none (some 3600) "NOW").duration
      = some 3600 :=
  ⟨(C4_create_payload "meeting" none none (some 3600) "NOW").2.2.1 rfl,
   (C4_create_payload "meeting" none (some "T0") none "NOW").2.2.2.1 "T0" rfl,
   (C4_create_payload "meeting" none none (some 3600) "NOW").2.2.2.2⟩

theorem makeRequestLoop_no_acquire (env : Nat → AttemptOutcome) (retries : Nat) :
    ∀ remaining attempt,
      ExecEvent.acquireToken ∉ (makeRequestLoop env retries remaining attempt).1 := by
  intro remaining
  induction remaining with
  | zero => intro attempt; simp [makeRequestLoop]
  | succ n ih =>
    intro attempt
    unfold makeRequestLoop
    cases henv : env attempt with
    | netError msg =>
      dsimp only
      split
      · simp
      · simp [ih]
    | resp r =>
      dsimp only
      split
      · cases hpi : pyInt? (r.retry_after.getD "2") with
        | none => simp
        | some v => simp [ih]
      · split
        · simp
        · split
          · simp
          · split
            · split
              · simp
              · simp [ih]
            · split
              · simp
              · simp

/-- C1 counterexample: a run whose first attempt fails at the transport
level and whose second attempt succeeds issues two HTTP requests but
acquires the rate limiter only once, so acquire is not called before
every attempt. -/
theorem C1_counterexample :
    (make_request envNetThenOk 3).1.count ExecEvent.httpRequest = 2 ∧
    (make_request envNetThenOk 3).1.count ExecEvent.acquireToken = 1 ∧
    (make_request envNetThenOk 3).1.count ExecEvent.acquireToken ≠
      (make_request envNetThenOk 3).1.count ExecEvent.httpRequest :=
  ⟨rfl, rfl, by decide⟩

/-- C1 (amended): in every execution of the request executor the rate
limiter is acquired exactly once, before the first attempt; the retry
attempts inside the loop are paced only by the Retry-After and
exponential-backoff sleeps, never by the token bucket. -/
theorem C1_acquire_once (env : Nat → AttemptOutcome) (retries : Nat) :
    (make_request env retries).1.count ExecEvent.acquireToken = 1 ∧
    (make_request env retries).1.head? = some ExecEvent.acquireToken := by
  unfold make_request
  dsimp only
  constructor
  · rw [List.count_cons_self,
      List.count_eq_zero.mpr (makeRequestLoop_no_acquire env retries (retries + 1) 0)]
  · rfl

theorem makeRequestLoop_all429 (env : Nat → AttemptOutcome) (retries : Nat) :
    ∀ remaining attempt,
      (∀ k, attempt ≤ k → k < attempt + remaining → isParsable429 (env k) = true) →
      (makeRequestLoop env retries remaining attempt).2 =
        .error (.apiError "Max retries exceeded" none) ∧
      (makeRequestLoop env retries remaining attempt).1.count ExecEvent.httpRequest
        = remaining := by
  intro remaining
  induction remaining with
  | zero => intro attempt h; exact ⟨rfl, rfl⟩
  | succ n ih =>
    intro attempt h
    have hthis := h attempt (le_refl _) (by omega)
    unfold makeRequestLoop
    cases henv : env attempt with
    | netError msg => rw [henv] at hthis; simp [isParsable429] at hthis
    | resp r =>
      rw [henv] at hthis
      unfold isParsable429 at hthis
      rw [Bool.and_eq_true] at hthis
      have h429 : r.status = 429 := by
        have := hthis.1
        simpa using this
      obtain ⟨v, hv⟩ := Option.isSome_iff_exists.mp hthis.2
      have hrec := ih (attempt + 1) (fun k hk1 hk2 => h k (by omega) (by omega))
      dsimp only
      rw [if_pos h429, hv]
      dsimp only
      refine ⟨hrec.1, ?_⟩
      rw [List.count_cons_self, List.count_cons_of_ne (by simp), hrec.2]

/-- C2 counterexample: a run of four consecutive 429 responses (with
`maxRetries = 3`) surfaces the error "Max retries exceeded" to the
caller while honouring each Retry-After sleep, so 429 responses do
exhaust the bounded retry budget. -/
theorem C2_counterexample :
    (make_request env429 3).2 =
      .error (.apiError "Max retries exceeded" none) ∧
    (make_request env429 3).1.count (ExecEvent.sleep 1) = 4 :=
  ⟨rfl, rfl⟩

/-- C2 (amended): a 429 response makes the executor wait for the
Retry-After duration and retry, but the `continue` consumes one
iteration of the bounded attempt loop: a run of `retries + 1`
consecutive 429 responses exhausts the loop and raises a
"Max retries exceeded" APIError with no status code. -/
theorem C2_429_consumes_budget (env : Nat → AttemptOutcome) (retries : Nat)
    (h : ∀ k, k ≤ retries → isParsable429 (env k) = true) :
    (make_request env retries).2 =
      .error (.apiError "Max retries exceeded" none) ∧
    (make_request env retries).1.count ExecEvent.httpRequest = retries + 1 := by
  have hloop := makeRequestLoop_all429 env retries (retries + 1) 0
    (fun k hk1 hk2 => h k (by omega))
  unfold make_request
  dsimp only
  refine ⟨hloop.1, ?_⟩
  rw [List.count_cons_of_ne (by simp), hloop.2]

theorem C2_429_consumes_budget_witness :
    (make_request env429 3).2 =
      .error (.apiError "Max retries exceeded" none) ∧
    (make_request env429 3).1.count ExecEvent.httpRequest = 3 + 1 :=
  C2_429_consumes_budget env429 3
    (fun k _ =>
      (by decide :
        isParsable429 (AttemptOutcome.resp
          { status := 429, retry_after := some "1", body := none, text := "" })
          = true))

/-- C5 counterexample: a 429 response carrying the unparsable header
value "abc" does not trigger the 2-second default; the `int()` call
raises an uncaught ValueError, a failure outside the APIError
taxonomy. -/
theorem C5_counterexample :
    (make_request envBadRetryAfter 3).2 = .error (.valueError "abc") ∧
    (make_request envBadRetryAfter 3).1.count (ExecEvent.sleep 2) = 0 :=
  ⟨rfl, rfl⟩

/-- C5 (amended): the 2-second default applies only when the
Retry-After header is absent; a present but unparsable header value
makes the executor fail with the uncaught ValueError of Python
`int()`, which is outside the APIError taxonomy. -/
theorem C5_retry_after_handling (env : Nat → AttemptOutcome) (retries : Nat)
    (r : HttpResponse) (henv : env 0 = .resp r) (h429 : r.status = 429) :
    (r.retry_after = none →
      (make_request env retries).1.take 3 =
        [ExecEvent.acquireToken, ExecEvent.httpRequest, ExecEvent.sleep 2]) ∧
    (∀ s, r.retry_after = some s → pyInt? s = none →
      (make_request env retries).2 = .error (.valueError s) ∧
      ∀ m sc, (make_request env retries).2 ≠ .error (.apiError m sc)) := by
  constructor
  · intro hra
    unfold make_request makeRequestLoop
    dsimp only
    rw [henv]
    dsimp only
    rw [if_pos h429, hra]
    have h2 : pyInt? ((none : Option String).getD "2") = some 2 := by decide
    rw [h2]
    rfl
  · intro s hra hbad
    unfold make_request makeRequestLoop
    dsimp only
    rw [henv]
    dsimp only
    rw [if_pos h429, hra]
    dsimp only [Option.getD]
    rw [hbad]
    exact ⟨rfl, by intro m sc hne; exact ExecError.noConfusion (Except.error.inj hne)⟩

theorem C5_retry_after_handling_witness :
    (make_request env429NoHeader 3).1.take 3 =
      [ExecEvent.acquireToken, ExecEvent.httpRequest, ExecEvent.sleep 2] ∧
    (make_request envBadRetryAfter 3).2 = .error (.valueError "abc") :=
  ⟨(C5_retry_after_handling env429NoHeader 3 _ rfl rfl).1 rfl,
   ((C5_retry_after_handling envBadRetryAfter 3 _ rfl rfl).2 "abc" rfl
     (by decide)).1⟩

/-- C9: the Reports API methods issue their HTTP request exactly once
with a single rate-limiter acquisition and no retry loop, and every
response status other than 200 — 429, 402 and 410 included — raises an
APIError carrying that status code immediately. -/
theorem C9_reports_single_request (r : HttpResponse) (h : r.status ≠ 200) :
    (reports_request r).1 = [ExecEvent.acquireToken, ExecEvent.httpRequest] ∧
    (reports_request r).1.count ExecEvent.acquireToken = 1 ∧
    (reports_request r).1.count ExecEvent.httpRequest = 1 ∧
    ∃ m, (reports_request r).2 = .error (.apiError m (some r.status)) := by
  refine ⟨rfl, rfl, rfl, ?_⟩
  unfold reports_request
  dsimp only
  rw [if_neg h]
  exact ⟨_, rfl⟩

theorem C9_reports_single_request_witness :
    (reports_request reportsResp429).1 =
      [ExecEvent.acquireToken, ExecEvent.httpRequest] ∧
    (reports_request reportsResp429).1.count ExecEvent.acquireToken = 1 ∧
    (reports_request reportsResp429).1.count ExecEvent.httpRequest = 1 ∧
    ∃ m, (reports_request reportsResp429).2 = .error (.apiError m (some 429)) :=
  C9_reports_single_request reportsResp429 (by decide)

/-- C10: get_current_time_entry yields an absent result both when the
executor raised with status 404 and whenever the executor produced an
empty result — a 204 status or an empty body, which the executor
normalizes to the empty dict — so callers cannot distinguish a 404
from an empty 2xx response. -/
theorem C10_current_entry_absent (env : Nat → AttemptOutcome) (retries : Nat) :
    ((make_request env retries).2 = .ok (.dict []) →
      get_current_time_entry env retries = .ok none) ∧
    (∀ m, (make_request env retries).2 = .error (.apiError m (some 404)) →
      get_current_time_entry env retries = .ok none) ∧
    (∀ r, env 0 = .resp r → 200 ≤ r.status → r.status < 300 →
      (r.status = 204 ∨ r.body = none) →
      get_current_time_entry env retries = .ok none) := by
  refine ⟨?_, ?_, ?_⟩
  · intro h
    unfold get_current_time_entry
    rw [h]
    rfl
  · intro m h
    unfold get_current_time_entry
    rw [h]
    rfl
  · intro r henv h1 h2 h3
    have hok : (make_request env retries).2 = .ok (.dict []) := by
      unfold make_request makeRequestLoop
      dsimp only
      rw [henv]
      dsimp only
      rw [if_neg (by omega), if_neg (by omega), if_neg (by omega),
        if_neg (not_not.mpr ⟨h1, h2⟩), if_pos h3]
    unfold get_current_time_entry
    rw [hok]
    rfl

theorem C10_current_entry_absent_witness :
    get_current_time_entry env204 3 = .ok none ∧
    get_current_time_entry env404 3 = .ok none :=
  ⟨(C10_current_entry_absent env204 3).2.2
      { status := 204, retry_after := none, body := none, text := "" }
      rfl (by norm_num) (by norm_num) (Or.inl rfl),
   (C10_current_entry_absent env404 3).2.1 "HTTP 404: " rfl⟩

end TogglTrackMCP
